import Mathlib

/-!
Verification development for the search-bar widget in
`src/components/SearchBar.tsx` (the full-featured variant with recent
searches, vertical links and entity previews).

The pure rendering and event-dispatch logic of the component is embedded
shallowly: the dropdown rows become an inductive `SuggestionRow` type, the
render helpers become list-producing functions, and the event handlers
become functions producing traces of `SearchAction`s.  External hooks that
live outside the reviewed file (`useSynchronizedRequest`,
`useSearchWithNearMeHandling`, `useRecentSearches`, `processTranslation`)
are modelled from the specification where a claim depends on them.
-/

namespace SiteSearch

/-- One autocomplete result, as consumed by `renderQuerySuggestions`:
a string `value` and an optional list of associated vertical keys
(`result.verticalKeys` may be absent in the source). -/
structure AutocompleteResult where
  value : String
  verticalKeys : Option (List String)
deriving DecidableEq

/-- The autocomplete response: an ordered list of results
(`autocompleteResponse.results`). -/
structure AutocompleteResponse where
  results : List AutocompleteResult
deriving DecidableEq

/-- A recent-search entry as produced by the `useRecentSearches` hook and
consumed by the component (`result.query`). -/
structure RecentSearch where
  query : String
deriving DecidableEq

/-- A rendered dropdown row.  `recentSearch` rows come from
`renderRecentSearches`, `querySuggestion` and `verticalLink` rows from
`renderQuerySuggestions`, and `entityPreview` rows stand for the opaque
externally rendered entity-preview content appended last. -/
inductive SuggestionRow where
  | recentSearch (query : String)
  | querySuggestion (value : String)
  | verticalLink (value : String) (verticalKey : String) (destination : String)
  | entityPreview (idx : Nat)
deriving DecidableEq

/-- Whether a row is a recent-search row. -/
def SuggestionRow.isRecentSearch : SuggestionRow → Bool
  | .recentSearch _ => true
  | _ => false

/-- Whether a row is a query-suggestion row. -/
def SuggestionRow.isQuerySuggestion : SuggestionRow → Bool
  | .querySuggestion _ => true
  | _ => false

/-- Whether a row is a vertical-link row. -/
def SuggestionRow.isLinkRow : SuggestionRow → Bool
  | .verticalLink _ _ _ => true
  | _ => false

/-- Whether a row is autocomplete-derived: a query suggestion or one of the
vertical-link rows generated underneath a query suggestion. -/
def SuggestionRow.isAutocompleteDerived (r : SuggestionRow) : Bool :=
  r.isQuerySuggestion || r.isLinkRow

/-- Section rank of a row in the aggregated list: recent searches come
first, then the query-suggestion/vertical-link block, then entity
previews. -/
def rowRank : SuggestionRow → Nat
  | .recentSearch _ => 0
  | .querySuggestion _ => 1
  | .verticalLink _ _ _ => 1
  | .entityPreview _ => 2

/-- Adjacency condition: a vertical-link row may only directly follow its
parent query suggestion, or another vertical-link row of the same parent
suggestion (same literal `value`).  Any other pair is unconstrained. -/
def rowPairOk (a b : SuggestionRow) : Bool :=
  match b with
  | .verticalLink v _ _ =>
    match a with
    | .verticalLink w _ _ => w == v
    | .querySuggestion w => w == v
    | _ => false
  | _ => true

/-- Combined ordering condition on two consecutive rows: section ranks are
non-decreasing and the vertical-link adjacency condition holds. -/
def rowOk (a b : SuggestionRow) : Bool :=
  decide (rowRank a ≤ rowRank b) && rowPairOk a b

/-- The vertical-link rows rendered under one query suggestion
(SearchBar.tsx lines 411-424): generated only when `!hideVerticalLinks &&
!isVertical`, one row per entry of `result.verticalKeys`, with metadata
destination `/{verticalKey}?query={result.value}`. -/
def verticalLinkRows (hideVerticalLinks isVertical : Bool)
    (result : AutocompleteResult) : List SuggestionRow :=
  if !hideVerticalLinks && !isVertical then
    (result.verticalKeys.getD []).map fun verticalKey =>
      .verticalLink result.value verticalKey
        ("/" ++ verticalKey ++ "?query=" ++ result.value)
  else []

/-- The rows contributed by a single autocomplete result: the query
suggestion itself followed by its vertical-link rows (the `Fragment` body
in `renderQuerySuggestions`). -/
def suggestionBlock (hideVerticalLinks isVertical : Bool)
    (result : AutocompleteResult) : List SuggestionRow :=
  .querySuggestion result.value :: verticalLinkRows hideVerticalLinks isVertical result

/-- Embeds `renderQuerySuggestions` (SearchBar.tsx lines 401-427): maps over
`autocompleteResponse?.results`, rendering each suggestion immediately
followed by its vertical links; an absent response renders nothing. -/
def renderQuerySuggestions (hideVerticalLinks isVertical : Bool)
    (autocompleteResponse : Option AutocompleteResponse) : List SuggestionRow :=
  ((autocompleteResponse.map AutocompleteResponse.results).getD []).flatMap
    (suggestionBlock hideVerticalLinks isVertical)

/-- Embeds `renderRecentSearches` (SearchBar.tsx lines 373-399): returns nothing
in vertical context, otherwise one row per filtered recent search; an
absent list renders nothing. -/
def renderRecentSearches (isVertical : Bool)
    (filteredRecentSearches : Option (List RecentSearch)) : List SuggestionRow :=
  if isVertical then []
  else (filteredRecentSearches.getD []).map fun result => .recentSearch result.query

/-- Embeds `filteredRecentSearches` (SearchBar.tsx lines 311-313): the stored
recent searches filtered by the external close-match utility against the
live query; absent storage stays absent. -/
def filterRecentSearches (isCloseMatch : String → String → Bool) (query : String)
    (recentSearches : Option (List RecentSearch)) : Option (List RecentSearch) :=
  recentSearches.map (List.filter fun search => isCloseMatch search.query query)

/-- Embeds `hasItems` (SearchBar.tsx line 429): true when the autocomplete
response has results, or — in non-vertical context only — when there are
filtered recent searches. -/
def hasItems (isVertical : Bool) (autocompleteResponse : Option AutocompleteResponse)
    (filteredRecentSearches : Option (List RecentSearch)) : Bool :=
  !((autocompleteResponse.map AutocompleteResponse.results).getD []).isEmpty
    || (!isVertical && !(filteredRecentSearches.getD []).isEmpty)

/-- The contents of the dropdown menu (SearchBar.tsx lines 468-474):
rendered only when `hasItems`, in the order recent searches, query
suggestions with their vertical links, entity previews.  `entityPreviews`
stands for the opaque output of `renderEntityPreviews`/`transformEntityPreviews`;
it is `none` when no preview renderer is supplied. -/
def suggestionList (isVertical hideVerticalLinks : Bool)
    (autocompleteResponse : Option AutocompleteResponse)
    (filteredRecentSearches : Option (List RecentSearch))
    (entityPreviews : Option (List Nat)) : List SuggestionRow :=
  if hasItems isVertical autocompleteResponse filteredRecentSearches then
    renderRecentSearches isVertical filteredRecentSearches
      ++ renderQuerySuggestions hideVerticalLinks isVertical autocompleteResponse
      ++ (entityPreviews.getD []).map .entityPreview
  else []

/-- Modelled from the spec: the pluralized-phrase formatter
`format(singular, plural, count) -> string` consumed from the external
collaborator `processTranslation`, which is not part of the reviewed file;
it picks the singular phrase exactly for count one. -/
def processTranslation (phrase pluralForm : String) (count : Nat) : String :=
  if count = 1 then phrase else pluralForm

/-- Whitespace trim on both ends of a string, embedding the final
`.trim()` call of `getScreenReaderText`; written over the character list
so that it is computable by kernel reduction. -/
def trimString (s : String) : String :=
  ⟨((s.data.dropWhile Char.isWhitespace).reverse.dropWhile Char.isWhitespace).reverse⟩

/-- Embeds `getScreenReaderText` (SearchBar.tsx lines 502-516): the recent-search
phrase is included only when its count is positive, the autocomplete
phrase always; both counts default to zero when absent. -/
def getScreenReaderText (autocompleteOptions recentSearchesOptions : Nat) : String :=
  let recentSearchesText :=
    if recentSearchesOptions > 0 then
      processTranslation
        (toString recentSearchesOptions ++ " recent search found.")
        (toString recentSearchesOptions ++ " recent searches found.")
        recentSearchesOptions
    else ""
  let autocompleteText :=
    processTranslation
      (toString autocompleteOptions ++ " autocomplete suggestion found.")
      (toString autocompleteOptions ++ " autocomplete suggestions found.")
      autocompleteOptions
  trimString (recentSearchesText ++ " " ++ autocompleteText)

/-- The count passed as first argument to `getScreenReaderText` at the
call site (SearchBar.tsx line 430): `autocompleteResponse?.results.length`,
defaulting to zero. -/
def reportedAutocompleteCount (autocompleteResponse : Option AutocompleteResponse) : Nat :=
  (autocompleteResponse.map fun r => r.results.length).getD 0

/-- The count passed as second argument to `getScreenReaderText` at the
call site (SearchBar.tsx line 430): `filteredRecentSearches?.length`,
defaulting to zero. -/
def reportedRecentCount (filteredRecentSearches : Option (List RecentSearch)) : Nat :=
  (filteredRecentSearches.map List.length).getD 0

/-- Embeds `screenReaderText` (SearchBar.tsx line 430): the accessible summary
derived from the autocomplete response and the filtered recent searches;
note that it is not gated on the vertical context. -/
def screenReaderText (autocompleteResponse : Option AutocompleteResponse)
    (filteredRecentSearches : Option (List RecentSearch)) : String :=
  getScreenReaderText (reportedAutocompleteCount autocompleteResponse)
    (reportedRecentCount filteredRecentSearches)

/-- Number of recent-search rows present in a rendered list. -/
def countRecentRows (rows : List SuggestionRow) : Nat :=
  (rows.filter SuggestionRow.isRecentSearch).length

/-- Number of query-suggestion rows present in a rendered list. -/
def countQuerySuggestionRows (rows : List SuggestionRow) : Nat :=
  (rows.filter SuggestionRow.isQuerySuggestion).length

/-- Number of autocomplete-derived rows (query suggestions and their
vertical links) present in a rendered list. -/
def countAutocompleteRows (rows : List SuggestionRow) : Nat :=
  (rows.filter SuggestionRow.isAutocompleteDerived).length

/-- The bundle of derived UI outputs the component computes from its
inputs on each render: the dropdown rows, the `hasItems` flag and the
accessible-count summary (SearchBar.tsx lines 429-474). -/
structure DerivedUI where
  rows : List SuggestionRow
  hasItemsFlag : Bool
  screenReader : String
deriving DecidableEq

/-- The derived UI state as computed by the component body. -/
def derivedUI (isVertical hideVerticalLinks : Bool)
    (autocompleteResponse : Option AutocompleteResponse)
    (filteredRecentSearches : Option (List RecentSearch))
    (entityPreviews : Option (List Nat)) : DerivedUI where
  rows := suggestionList isVertical hideVerticalLinks autocompleteResponse
    filteredRecentSearches entityPreviews
  hasItemsFlag := hasItems isVertical autocompleteResponse filteredRecentSearches
  screenReader := screenReaderText autocompleteResponse filteredRecentSearches

/-- One observable effect performed by an event handler of the component:
calls into the search-state client (`setQuery`, issuing an autocomplete
request, the near-me query dispatch), the recent-search store, the
entity-preview machinery, or the routing layer (`browserHistory.push`). -/
inductive SearchAction where
  | setQuery (q : String)
  | updateEntityPreviews (q : String)
  | recordRecentSearch (q : String)
  | nearMeDispatch
  | issueAutocomplete
  | navigate (path : String)
deriving DecidableEq

/-- Whether an action is a call into the search-state client. -/
def SearchAction.isSearchStateAction : SearchAction → Bool
  | .setQuery _ => true
  | .issueAutocomplete => true
  | .nearMeDispatch => true
  | _ => false

/-- Embeds `executeQuery` (SearchBar.tsx lines 321-327): unless recent searches
are hidden, record the current query input into the store when it is
truthy (a non-empty string); then invoke the near-me-handling dispatch. -/
def executeQuery (hideRecentSearches : Bool) (queryInput : String) : List SearchAction :=
  (if hideRecentSearches then []
   else if queryInput = "" then []
   else [.recordRecentSearch queryInput])
    ++ [.nearMeDispatch]

/-- The `onSubmit` handler of the input (SearchBar.tsx line 358) and the
search button's click handler (line 346): both call `executeQuery` with
the current query input. -/
def onSubmit (hideRecentSearches : Bool) (queryInput : String) : List SearchAction :=
  executeQuery hideRecentSearches queryInput

/-- The `onFocus` handler (SearchBar.tsx lines 359-363): set the query,
update entity previews, issue an autocomplete request. -/
def onFocus (value : String) : List SearchAction :=
  [.setQuery value, .updateEntityPreviews value, .issueAutocomplete]

/-- The `onChange` handler (SearchBar.tsx lines 364-368): set the query,
update entity previews, issue an autocomplete request. -/
def onChange (value : String) : List SearchAction :=
  [.setQuery value, .updateEntityPreviews value, .issueAutocomplete]

/-- The `onSelect` handler (SearchBar.tsx lines 442-452): always set the
query to the selected value first; when the row's metadata carries a
`verticalLink` path, navigate there; otherwise issue an autocomplete
request and run `executeQuery` (the query input now being the selected
value, set just before). -/
def onSelect (hideRecentSearches : Bool) (value : String)
    (verticalLinkMetadata : Option String) : List SearchAction :=
  .setQuery value ::
    match verticalLinkMetadata with
    | some path => [.navigate path]
    | none => .issueAutocomplete :: executeQuery hideRecentSearches value

/-- The `onToggle` handler (SearchBar.tsx lines 453-459): when the panel
closes, update entity previews, re-seed the query and re-issue an
autocomplete request; when it opens, do nothing. -/
def onToggle (isActive : Bool) (value : String) : List SearchAction :=
  if isActive then []
  else [.updateEntityPreviews value, .setQuery value, .issueAutocomplete]

/-- Modelled from the spec: `RecentSearchStore.record` of the external
`useRecentSearches` hook, which is not part of the reviewed file: trim the
query; if non-empty and distinct from the immediately-preceding stored
entry, prepend; truncate to capacity. -/
def RecentSearchStore.record (capacity : Nat) (query : String)
    (store : List RecentSearch) : List RecentSearch :=
  let trimmed := query.trim
  if trimmed = "" then store
  else if store.head?.map RecentSearch.query = some trimmed then store
  else (⟨trimmed⟩ :: store).take capacity

/-- The slice of component state relevant to the recent-search store: the
`hideRecentSearches` prop, the stored entries, and the live query input. -/
structure ControllerState where
  hideRecentSearches : Bool
  storedRecentSearches : List RecentSearch
  queryInput : String
deriving DecidableEq

/-- A step of the component's life: a change of the `hideRecentSearches`
prop (a re-render, not a user event), a change of the input text, or a
submit event. -/
inductive ControllerStep where
  | propChange (hideRecentSearches : Bool)
  | inputChange (value : String)
  | submit
deriving DecidableEq

/-- The `useEffect` at SearchBar.tsx lines 315-319: after a render in
which `hideRecentSearches` is set, the store is cleared. -/
def applyRecentSearchesEffect (s : ControllerState) : ControllerState :=
  if s.hideRecentSearches then { s with storedRecentSearches := [] } else s

/-- The state transition for one controller step.  A prop change triggers
a re-render and hence the clearing effect; a submit records via
`executeQuery`'s store branch (lines 321-327); input changes do not touch
the store. -/
def applyControllerStep (s : ControllerState) (step : ControllerStep) : ControllerState :=
  match step with
  | .propChange b => applyRecentSearchesEffect { s with hideRecentSearches := b }
  | .inputChange v => { s with queryInput := v }
  | .submit =>
    if s.hideRecentSearches then s
    else if s.queryInput = "" then s
    else { s with
      storedRecentSearches := RecentSearchStore.record 5 s.queryInput s.storedRecentSearches }

/-- Modelled from the spec: the state owned by `useSynchronizedRequest`
(the hook is not part of the reviewed file): a monotonically increasing
counter of issued requests (`latestIssued`) and the currently published
response. -/
structure SynchronizedRequestState (α : Type) where
  latestIssued : Nat
  published : Option α
deriving DecidableEq

/-- Modelled from the spec: issuing a request increments the private
counter to obtain the new sequence number, which becomes `latestIssued`;
the pair returned is the new state and the sequence number handed to the
in-flight fetch. -/
def issueRequest {α : Type} (s : SynchronizedRequestState α) :
    SynchronizedRequestState α × Nat :=
  ({ s with latestIssued := s.latestIssued + 1 }, s.latestIssued + 1)

/-- Modelled from the spec: when the fetch issued with sequence number
`seq` resolves with `response`, the result is published only if `seq`
still equals `latestIssued`; otherwise it is silently discarded. -/
def resolveRequest {α : Type} (s : SynchronizedRequestState α) (seq : Nat)
    (response : α) : SynchronizedRequestState α :=
  if seq = s.latestIssued then { s with published := some response } else s

/-- The synchronizer state before any request has been issued. -/
def initialSyncState (α : Type) : SynchronizedRequestState α :=
  { latestIssued := 0, published := none }

/-- Issue `n` requests in a row (each one superseding the previous). -/
def issueMany {α : Type} : Nat → SynchronizedRequestState α → SynchronizedRequestState α
  | 0, s => s
  | n + 1, s => issueMany n (issueRequest s).1

/-- Resolve a list of in-flight requests, in the order the network
delivers them; each element pairs a sequence number with its response. -/
def resolveAll {α : Type} (resolutions : List (Nat × α))
    (s : SynchronizedRequestState α) : SynchronizedRequestState α :=
  resolutions.foldl (fun t p => resolveRequest t p.1 p.2) s

/-- Modelled from the spec: the possible outcomes of the platform
geolocation lookup raced against the fixed timeout inside
`useSearchWithNearMeHandling` (the hook is not part of the reviewed
file). -/
inductive GeolocationOutcome where
  | success (latitude longitude : Int)
  | permissionDenied
  | timeout
  | unavailable
deriving DecidableEq

/-- The observable outcome of one near-me dispatch: the query text finally
dispatched, whether a search was executed at all, and whether a non-fatal
warning was surfaced through the notification channel. -/
structure DispatchOutcome where
  dispatchedQuery : String
  queryExecuted : Bool
  warningIssued : Bool
deriving DecidableEq

/-- Modelled from the spec: `NearMeDispatchPolicy.dispatch` of
`useSearchWithNearMeHandling` (not part of the reviewed file).  When the
query matches the near-me intent predicate, the geolocation lookup is
raced against the timeout: on success the dispatched query is rewritten to
include the coordinates; on denial, timeout or unavailability the original
query is dispatched unmodified and a non-fatal warning is surfaced.  A
query without near-me intent is dispatched directly.  The exact coordinate
rewriting format is external to the reviewed file; it only matters here
that the failure branches leave the query untouched. -/
def nearMeDispatch (isNearMeIntent : String → Bool) (queryText : String)
    (outcome : GeolocationOutcome) : DispatchOutcome :=
  if isNearMeIntent queryText then
    match outcome with
    | .success latitude longitude =>
      { dispatchedQuery :=
          queryText ++ " [" ++ toString latitude ++ "," ++ toString longitude ++ "]"
        queryExecuted := true
        warningIssued := false }
    | _ => { dispatchedQuery := queryText, queryExecuted := true, warningIssued := true }
  else { dispatchedQuery := queryText, queryExecuted := true, warningIssued := false }

/-- Propositional form of the pairwise ordering condition `rowOk`. -/
def rowOkP (a b : SuggestionRow) : Prop := rowOk a b = true

/-! ### Helper lemmas -/

theorem mem_of_mem_head?' {α : Type} {l : List α} {x : α} (h : x ∈ l.head?) : x ∈ l := by
  cases l with
  | nil => simp at h
  | cons a as =>
    simp at h
    subst h
    exact List.mem_cons_self _ _

theorem mem_of_mem_getLast?' {α : Type} {l : List α} {x : α} (h : x ∈ l.getLast?) :
    x ∈ l := by
  rcases List.mem_getLast?_eq_getLast h with ⟨hne, rfl⟩
  exact List.getLast_mem hne

theorem mem_renderRecentSearches {r : SuggestionRow} {isVertical : Bool}
    {frs : Option (List RecentSearch)}
    (h : r ∈ renderRecentSearches isVertical frs) : ∃ q, r = .recentSearch q := by
  unfold renderRecentSearches at h
  split at h
  · simp at h
  · rcases List.mem_map.mp h with ⟨x, _, rfl⟩
    exact ⟨x.query, rfl⟩

theorem mem_verticalLinkRows {r : SuggestionRow} {h v : Bool}
    {result : AutocompleteResult} (hm : r ∈ verticalLinkRows h v result) :
    ∃ k d, r = .verticalLink result.value k d := by
  unfold verticalLinkRows at hm
  split at hm
  · rcases List.mem_map.mp hm with ⟨k, _, rfl⟩
    exact ⟨k, _, rfl⟩
  · simp at hm

theorem mem_suggestionBlock {r : SuggestionRow} {h v : Bool}
    {result : AutocompleteResult} (hm : r ∈ suggestionBlock h v result) :
    r = .querySuggestion result.value ∨ ∃ k d, r = .verticalLink result.value k d := by
  rcases List.mem_cons.mp hm with h1 | h1
  · exact Or.inl h1
  · exact Or.inr (mem_verticalLinkRows h1)

theorem rank_of_mem_suggestionBlock {r : SuggestionRow} {h v : Bool}
    {result : AutocompleteResult} (hm : r ∈ suggestionBlock h v result) :
    rowRank r = 1 := by
  rcases mem_suggestionBlock hm with rfl | ⟨k, d, rfl⟩ <;> rfl

theorem mem_renderQuerySuggestions {r : SuggestionRow} {h v : Bool}
    {resp : Option AutocompleteResponse} (hm : r ∈ renderQuerySuggestions h v resp) :
    ∃ result ∈ (resp.map AutocompleteResponse.results).getD [],
      r ∈ suggestionBlock h v result := by
  unfold renderQuerySuggestions at hm
  exact List.mem_flatMap.mp hm

theorem not_recent_of_mem_renderQuerySuggestions {r : SuggestionRow} {h v : Bool}
    {resp : Option AutocompleteResponse} (hm : r ∈ renderQuerySuggestions h v resp) :
    r.isRecentSearch = false := by
  rcases mem_renderQuerySuggestions hm with ⟨result, _, hb⟩
  rcases mem_suggestionBlock hb with rfl | ⟨k, d, rfl⟩ <;> rfl

theorem not_recent_of_mem_previews {r : SuggestionRow} {ps : List Nat}
    (hm : r ∈ ps.map SuggestionRow.entityPreview) : r.isRecentSearch = false := by
  rcases List.mem_map.mp hm with ⟨i, _, rfl⟩
  rfl

theorem rowRank_le_two (r : SuggestionRow) : rowRank r ≤ 2 := by
  cases r <;> simp [rowRank]

theorem rowOk_of_not_link {x y : SuggestionRow} (h1 : rowRank x ≤ rowRank y)
    (h2 : y.isLinkRow = false) : rowOkP x y := by
  unfold rowOkP rowOk
  rw [Bool.and_eq_true]
  refine ⟨decide_eq_true h1, ?_⟩
  cases y with
  | verticalLink v k d => simp [SuggestionRow.isLinkRow] at h2
  | recentSearch q => rfl
  | querySuggestion q => rfl
  | entityPreview i => rfl

theorem chain'_of_forall_ok {l : List SuggestionRow}
    (h : ∀ a ∈ l, ∀ b ∈ l, rowOkP a b) : l.Chain' rowOkP := by
  induction l with
  | nil => exact List.chain'_nil
  | cons x xs ih =>
    rw [List.chain'_cons']
    constructor
    · intro y hy
      exact h x (List.mem_cons_self _ _) y
        (List.mem_cons_of_mem _ (mem_of_mem_head?' hy))
    · exact ih fun a ha b hb =>
        h a (List.mem_cons_of_mem _ ha) b (List.mem_cons_of_mem _ hb)

theorem chain'_renderRecentSearches (isVertical : Bool)
    (frs : Option (List RecentSearch)) :
    (renderRecentSearches isVertical frs).Chain' rowOkP := by
  apply chain'_of_forall_ok
  intro a ha b hb
  rcases mem_renderRecentSearches ha with ⟨p, rfl⟩
  rcases mem_renderRecentSearches hb with ⟨q, rfl⟩
  simp [rowOkP, rowOk, rowRank, rowPairOk]

theorem chain'_previews (ps : List Nat) :
    (ps.map SuggestionRow.entityPreview).Chain' rowOkP := by
  apply chain'_of_forall_ok
  intro a ha b hb
  rcases List.mem_map.mp ha with ⟨i, _, rfl⟩
  rcases List.mem_map.mp hb with ⟨j, _, rfl⟩
  simp [rowOkP, rowOk, rowRank, rowPairOk]

theorem chain'_suggestionBlock (h v : Bool) (result : AutocompleteResult) :
    (suggestionBlock h v result).Chain' rowOkP := by
  unfold suggestionBlock
  rw [List.chain'_cons']
  constructor
  · intro y hy
    rcases mem_verticalLinkRows (mem_of_mem_head?' hy) with ⟨k, d, rfl⟩
    simp [rowOkP, rowOk, rowRank, rowPairOk]
  · apply chain'_of_forall_ok
    intro a ha b hb
    rcases mem_verticalLinkRows ha with ⟨k1, d1, rfl⟩
    rcases mem_verticalLinkRows hb with ⟨k2, d2, rfl⟩
    simp [rowOkP, rowOk, rowRank, rowPairOk]

theorem head?_renderQuerySuggestions {h v : Bool} {resp : Option AutocompleteResponse}
    {y : SuggestionRow} (hy : y ∈ (renderQuerySuggestions h v resp).head?) :
    ∃ w, y = .querySuggestion w := by
  unfold renderQuerySuggestions at hy
  cases hres : (resp.map AutocompleteResponse.results).getD [] with
  | nil => rw [hres] at hy; simp at hy
  | cons a as =>
    rw [hres, List.flatMap_cons] at hy
    have hshape : suggestionBlock h v a ++ as.flatMap (suggestionBlock h v)
        = SuggestionRow.querySuggestion a.value
          :: (verticalLinkRows h v a ++ as.flatMap (suggestionBlock h v)) := by
      simp [suggestionBlock]
    rw [hshape] at hy
    simp at hy
    exact ⟨a.value, hy.symm⟩

theorem chain'_flatMap_blocks (h v : Bool) (results : List AutocompleteResult) :
    (results.flatMap (suggestionBlock h v)).Chain' rowOkP := by
  induction results with
  | nil => simp
  | cons r rs ih =>
    rw [List.flatMap_cons, List.chain'_append]
    refine ⟨chain'_suggestionBlock h v r, ih, ?_⟩
    intro x hx y hy
    have hrank : rowRank x = 1 :=
      rank_of_mem_suggestionBlock (mem_of_mem_getLast?' hx)
    have hq : ∃ w, y = SuggestionRow.querySuggestion w := by
      have hrw : rs.flatMap (suggestionBlock h v)
          = renderQuerySuggestions h v (some ⟨rs⟩) := rfl
      rw [hrw] at hy
      exact head?_renderQuerySuggestions hy
    rcases hq with ⟨w, rfl⟩
    refine rowOk_of_not_link ?_ rfl
    rw [hrank]
    exact Nat.le_refl 1

theorem head_not_link_append {l₁ l₂ : List SuggestionRow}
    (h1 : ∀ y ∈ l₁.head?, y.isLinkRow = false)
    (h2 : ∀ y ∈ l₂.head?, y.isLinkRow = false) :
    ∀ y ∈ (l₁ ++ l₂).head?, y.isLinkRow = false := by
  cases l₁ with
  | nil => simpa using h2
  | cons a as =>
    intro y hy
    simp at hy
    subst hy
    exact h1 a (by simp)

theorem filter_map_all_true {α : Type} (f : α → SuggestionRow)
    (p : SuggestionRow → Bool) (hp : ∀ x, p (f x) = true) (l : List α) :
    (l.map f).filter p = l.map f := by
  induction l with
  | nil => rfl
  | cons x xs ih => simp [List.filter_cons, hp, ih]

theorem filter_eq_nil_of_mem_false {l : List SuggestionRow} {p : SuggestionRow → Bool}
    (h : ∀ a ∈ l, p a = false) : l.filter p = [] := by
  induction l with
  | nil => rfl
  | cons x xs ih =>
    rw [List.filter_cons]
    rw [h x (List.mem_cons_self _ _)]
    exact ih fun a ha => h a (List.mem_cons_of_mem _ ha)

theorem countQS_flatMap (h v : Bool) (results : List AutocompleteResult) :
    countQuerySuggestionRows (results.flatMap (suggestionBlock h v))
      = results.length := by
  induction results with
  | nil => rfl
  | cons r rs ih =>
    unfold countQuerySuggestionRows at *
    rw [List.flatMap_cons, List.filter_append, List.length_append, ih]
    have hblock : (suggestionBlock h v r).filter SuggestionRow.isQuerySuggestion
        = [SuggestionRow.querySuggestion r.value] := by
      unfold suggestionBlock
      rw [List.filter_cons]
      have hlinks : (verticalLinkRows h v r).filter SuggestionRow.isQuerySuggestion
          = [] := by
        apply filter_eq_nil_of_mem_false
        intro a ha
        rcases mem_verticalLinkRows ha with ⟨k, d, rfl⟩
        rfl
      simp [SuggestionRow.isQuerySuggestion, hlinks]
    rw [hblock]
    simp [Nat.add_comm]

theorem resolveRequest_latestIssued {α : Type} (s : SynchronizedRequestState α)
    (seq : Nat) (r : α) : (resolveRequest s seq r).latestIssued = s.latestIssued := by
  unfold resolveRequest
  split <;> rfl

theorem issueMany_latestIssued {α : Type} :
    ∀ (n : Nat) (s : SynchronizedRequestState α),
      (issueMany n s).latestIssued = s.latestIssued + n := by
  intro n
  induction n with
  | zero => intro s; rfl
  | succ k ih =>
    intro s
    have h := ih (issueRequest s).1
    simp only [issueMany]
    rw [h]
    simp only [issueRequest]
    omega

theorem issueMany_published {α : Type} :
    ∀ (n : Nat) (s : SynchronizedRequestState α),
      (issueMany n s).published = s.published := by
  intro n
  induction n with
  | zero => intro s; rfl
  | succ k ih => intro s; exact ih (issueRequest s).1

theorem resolveAll_published_of_latest {α : Type} (N : Nat) (f : Nat → α) :
    ∀ (resolutions : List (Nat × α)) (s : SynchronizedRequestState α),
      s.latestIssued = N →
      (∀ p ∈ resolutions, p.1 = N → p.2 = f N) →
      ((N, f N) ∈ resolutions ∨ s.published = some (f N)) →
      (resolveAll resolutions s).published = some (f N) := by
  intro resolutions
  induction resolutions with
  | nil =>
    intro s _ _ hmem
    rcases hmem with h | h
    · simp at h
    · exact h
  | cons p L ih =>
    intro s hN hresp hmem
    have hstep : resolveAll (p :: L) s = resolveAll L (resolveRequest s p.1 p.2) := rfl
    rw [hstep]
    apply ih
    · rw [resolveRequest_latestIssued]; exact hN
    · intro q hq hqN
      exact hresp q (List.mem_cons_of_mem _ hq) hqN
    · by_cases hp : p.1 = N
      · right
        have hval : p.2 = f N := hresp p (List.mem_cons_self _ _) hp
        simp [resolveRequest, hp, hN, hval]
      · rcases hmem with h | h
        · rcases List.mem_cons.mp h with h1 | h1
          · exact absurd (by rw [← h1]) hp
          · left; exact h1
        · right
          have : ¬ p.1 = s.latestIssued := by rw [hN]; exact hp
          simp [resolveRequest, this, h]

theorem chain'_renderQuerySuggestions (h v : Bool)
    (resp : Option AutocompleteResponse) :
    (renderQuerySuggestions h v resp).Chain' rowOkP :=
  chain'_flatMap_blocks h v _

theorem countQS_renderQuerySuggestions (h v : Bool)
    (resp : Option AutocompleteResponse) :
    countQuerySuggestionRows (renderQuerySuggestions h v resp)
      = ((resp.map AutocompleteResponse.results).getD []).length :=
  countQS_flatMap h v _

/-! ### Claim theorems -/

/-- C1: for every sequence of autocomplete requests issued by the search
bar (all of `onFocus`, `onChange`, `onToggle` on close, and non-link
`onSelect` issue one), whatever order their responses resolve in, the
published autocomplete response always equals the response of the most
recently issued request, and a response to any request that is no longer
the latest issued is silently discarded, leaving the state unchanged. -/
theorem published_response_is_latest_issued {α : Type} (N : Nat) (f : Nat → α)
    (resolutions : List (Nat × α))
    (hpos : 0 < N)
    (hlast : (N, f N) ∈ resolutions)
    (hunique : ∀ p ∈ resolutions, p.1 = N → p.2 = f N) :
    (resolveAll resolutions (issueMany N (initialSyncState α))).published = some (f N)
    ∧ (∀ (s : SynchronizedRequestState α) (seq : Nat) (r : α),
        seq ≠ s.latestIssued → resolveRequest s seq r = s)
    ∧ (∀ v, SearchAction.issueAutocomplete ∈ onFocus v
        ∧ SearchAction.issueAutocomplete ∈ onChange v
        ∧ SearchAction.issueAutocomplete ∈ onToggle false v)
    ∧ (∀ hide v, SearchAction.issueAutocomplete ∈ onSelect hide v none) := by
  refine ⟨?_, ?_, ?_, ?_⟩
  · apply resolveAll_published_of_latest N f resolutions _ ?_ hunique (Or.inl hlast)
    rw [issueMany_latestIssued]
    simp [initialSyncState]
  · intro s seq r hne
    simp [resolveRequest, hne]
  · intro v
    refine ⟨?_, ?_, ?_⟩ <;> simp [onFocus, onChange, onToggle]
  · intro hide v
    simp [onSelect]

/-- C1 witness: two requests issued, the second resolving before the
first; the stale first response is discarded and the published response is
that of the most recently issued request. -/
theorem published_response_is_latest_issued_witness :
    (resolveAll [(2, 20), (1, 10)] (issueMany 2 (initialSyncState Nat))).published = some 20 :=
  (published_response_is_latest_issued 2 (fun n => 10 * n) [(2, 20), (1, 10)]
    (by decide) (by decide) (by decide)).1

/-- C3: vertical-link rows are generated for a suggestion iff vertical
links are enabled, the context is not vertical, and the suggestion carries
at least one vertical key; every generated row's destination is
`/verticalKey?query=value` with the suggestion's literal value, and a
suggestion with an empty vertical-key set produces no link rows. -/
theorem vertical_link_rows_spec (hideVerticalLinks isVertical : Bool)
    (result : AutocompleteResult) :
    (verticalLinkRows hideVerticalLinks isVertical result ≠ []
      ↔ hideVerticalLinks = false ∧ isVertical = false
        ∧ result.verticalKeys.getD [] ≠ [])
    ∧ (∀ row ∈ verticalLinkRows hideVerticalLinks isVertical result,
        ∃ k ∈ result.verticalKeys.getD [],
          row = SuggestionRow.verticalLink result.value k
            ("/" ++ k ++ "?query=" ++ result.value))
    ∧ (result.verticalKeys = some [] →
        verticalLinkRows hideVerticalLinks isVertical result = []) := by
  refine ⟨?_, ?_, ?_⟩
  · cases hideVerticalLinks <;> cases isVertical <;> simp [verticalLinkRows]
  · intro row hrow
    unfold verticalLinkRows at hrow
    split at hrow
    · rcases List.mem_map.mp hrow with ⟨k, hk, rfl⟩
      exact ⟨k, hk, rfl⟩
    · simp at hrow
  · intro hkeys
    cases hideVerticalLinks <;> cases isVertical <;> simp [verticalLinkRows, hkeys]

/-- C3 witness: a suggestion with vertical key `k1` produces link rows in
non-vertical enabled mode, and the same suggestion with an empty key set
produces none. -/
theorem vertical_link_rows_spec_witness :
    verticalLinkRows false false ⟨"b", some []⟩ = []
    ∧ verticalLinkRows false false ⟨"b", some ["k1"]⟩ ≠ [] :=
  ⟨(vertical_link_rows_spec false false ⟨"b", some []⟩).2.2 rfl,
   (vertical_link_rows_spec false false ⟨"b", some ["k1"]⟩).1.mpr
     ⟨rfl, rfl, by decide⟩⟩

/-- C5: on submit, and on selection of a query-suggestion or
recent-search row (both reach `onSelect` with no `verticalLink` metadata),
the controller records the current query into the recent-search store
exactly when recent searches are not hidden and the query is non-empty,
always invokes the near-me dispatch, and the recording precedes the
dispatch in the performed action sequence. -/
theorem submit_and_select_record_then_dispatch (hideRecentSearches : Bool)
    (queryInput value : String) :
    (SearchAction.recordRecentSearch queryInput ∈ onSubmit hideRecentSearches queryInput
      ↔ hideRecentSearches = false ∧ queryInput ≠ "")
    ∧ SearchAction.nearMeDispatch ∈ onSubmit hideRecentSearches queryInput
    ∧ (hideRecentSearches = false → queryInput ≠ "" →
        [SearchAction.recordRecentSearch queryInput, SearchAction.nearMeDispatch].Sublist
          (onSubmit hideRecentSearches queryInput))
    ∧ (SearchAction.recordRecentSearch value ∈ onSelect hideRecentSearches value none
      ↔ hideRecentSearches = false ∧ value ≠ "")
    ∧ SearchAction.nearMeDispatch ∈ onSelect hideRecentSearches value none
    ∧ (hideRecentSearches = false → value ≠ "" →
        [SearchAction.recordRecentSearch value, SearchAction.nearMeDispatch].Sublist
          (onSelect hideRecentSearches value none)) := by
  have hsub : ∀ (q : String), q ≠ "" →
      [SearchAction.recordRecentSearch q, SearchAction.nearMeDispatch].Sublist
        (executeQuery false q) := by
    intro q hq
    simp [executeQuery, hq]
  refine ⟨?_, ?_, ?_, ?_, ?_, ?_⟩
  · cases hideRecentSearches <;>
      by_cases hq : queryInput = "" <;> simp [onSubmit, executeQuery, hq]
  · cases hideRecentSearches <;>
      by_cases hq : queryInput = "" <;> simp [onSubmit, executeQuery, hq]
  · intro hh hq
    subst hh
    exact hsub queryInput hq
  · cases hideRecentSearches <;>
      by_cases hv : value = "" <;> simp [onSelect, executeQuery, hv]
  · cases hideRecentSearches <;>
      by_cases hv : value = "" <;> simp [onSelect, executeQuery, hv]
  · intro hh hv
    subst hh
    simp only [onSelect]
    exact ((hsub value hv).cons _).cons _

/-- C5 witness: with recent searches enabled and the non-empty query
`tacos`, the submit trace records the query and then dispatches. -/
theorem submit_and_select_record_then_dispatch_witness :
    [SearchAction.recordRecentSearch "tacos", SearchAction.nearMeDispatch].Sublist
      (onSubmit false "tacos") :=
  (submit_and_select_record_then_dispatch false "tacos" "x").2.2.1 rfl (by decide)

/-- C6: selecting a vertical-link row navigates to its destination path
and performs neither recent-search recording nor a near-me query
dispatch, while selecting any non-link row performs no navigation. -/
theorem vertical_link_selection_navigates (hideRecentSearches : Bool)
    (value path : String) :
    SearchAction.navigate path ∈ onSelect hideRecentSearches value (some path)
    ∧ (∀ q, SearchAction.recordRecentSearch q ∉ onSelect hideRecentSearches value (some path))
    ∧ SearchAction.nearMeDispatch ∉ onSelect hideRecentSearches value (some path)
    ∧ (∀ p, SearchAction.navigate p ∉ onSelect hideRecentSearches value none) := by
  refine ⟨?_, ?_, ?_, ?_⟩ <;>
    cases hideRecentSearches <;>
      by_cases hv : value = "" <;>
        simp [onSelect, executeQuery, hv]

/-- C6 witness: selecting the link row for destination `/k1?query=b`
navigates there, and a plain selection of `b` never navigates. -/
theorem vertical_link_selection_navigates_witness :
    SearchAction.navigate "/k1?query=b" ∈ onSelect false "b" (some "/k1?query=b")
    ∧ SearchAction.navigate "/k1?query=b" ∉ onSelect false "b" none :=
  ⟨(vertical_link_selection_navigates false "b" "/k1?query=b").1,
   (vertical_link_selection_navigates false "b" "/k1?query=b").2.2.2 "/k1?query=b"⟩

/-- C10: on selection of a vertical-link row the controller first sets the
live query to the selected row's value and then navigates; the query
update is the only call into the search-state client (in particular no
autocomplete request is issued and no query is executed). -/
theorem vertical_link_selection_sets_query_only (hideRecentSearches : Bool)
    (value path : String) :
    (onSelect hideRecentSearches value (some path)).filter SearchAction.isSearchStateAction
      = [SearchAction.setQuery value]
    ∧ [SearchAction.setQuery value, SearchAction.navigate path].Sublist
        (onSelect hideRecentSearches value (some path)) := by
  constructor
  · simp [onSelect, List.filter, SearchAction.isSearchStateAction]
  · simp [onSelect]

/-- C10 witness: the concrete link selection of value `b` with destination
`/k1?query=b` performs exactly the query update among search-state calls,
in order before the navigation. -/
theorem vertical_link_selection_sets_query_only_witness :
    (onSelect true "b" (some "/k1?query=b")).filter SearchAction.isSearchStateAction
      = [SearchAction.setQuery "b"] :=
  (vertical_link_selection_sets_query_only true "b" "/k1?query=b").1

/-- C8: whenever the hide-recent-searches prop becomes true, the store is
cleared by the very re-render that observes the prop change — after any
session history whatsoever (in particular mid-session with entries in the
store), and without any input, focus, or submit event being involved. -/
theorem disabling_recent_searches_clears_store (steps : List ControllerStep)
    (s : ControllerState) :
    (((steps ++ [ControllerStep.propChange true]).foldl applyControllerStep s).storedRecentSearches
      = [])
    ∧ ((steps ++ [ControllerStep.propChange true]).foldl applyControllerStep s).hideRecentSearches
      = true := by
  rw [List.foldl_append]
  constructor <;>
    simp [List.foldl, applyControllerStep, applyRecentSearchesEffect]

/-- C8 witness: a session that typed and submitted `tacos` (so the store
is non-empty) still ends with an empty store once the prop turns true. -/
theorem disabling_recent_searches_clears_store_witness :
    (([ControllerStep.inputChange "tacos", ControllerStep.submit]
        ++ [ControllerStep.propChange true]).foldl applyControllerStep
      ⟨false, [], ""⟩).storedRecentSearches = [] :=
  (disabling_recent_searches_clears_store
    [ControllerStep.inputChange "tacos", ControllerStep.submit] ⟨false, [], ""⟩).1

/-- C9: for a dispatched query that requires geolocation, any failing
geolocation outcome (permission denied, timeout, unavailable) still
dispatches the original query text unmodified with a non-fatal warning
surfaced; and no geolocation outcome ever prevents the query from being
executed. -/
theorem geolocation_failure_still_dispatches (isNearMeIntent : String → Bool)
    (queryText : String) (outcome : GeolocationOutcome)
    (hintent : isNearMeIntent queryText = true)
    (hfail : ∀ latitude longitude : Int,
      outcome ≠ GeolocationOutcome.success latitude longitude) :
    nearMeDispatch isNearMeIntent queryText outcome
      = { dispatchedQuery := queryText, queryExecuted := true, warningIssued := true }
    ∧ (∀ o : GeolocationOutcome,
        (nearMeDispatch isNearMeIntent queryText o).queryExecuted = true) := by
  constructor
  · unfold nearMeDispatch
    rw [hintent]
    cases outcome with
    | success latitude longitude => exact absurd rfl (hfail latitude longitude)
    | permissionDenied => rfl
    | timeout => rfl
    | unavailable => rfl
  · intro o
    unfold nearMeDispatch
    rw [hintent]
    cases o <;> rfl

/-- C9 witness: the near-me query `coffee near me` with a geolocation
timeout is dispatched unmodified, executed, and a warning is surfaced. -/
theorem geolocation_failure_still_dispatches_witness :
    nearMeDispatch (fun q => q == "coffee near me") "coffee near me"
        GeolocationOutcome.timeout
      = { dispatchedQuery := "coffee near me", queryExecuted := true, warningIssued := true } :=
  (geolocation_failure_still_dispatches (fun q => q == "coffee near me")
    "coffee near me" GeolocationOutcome.timeout (by decide)
    (fun _ _ h => nomatch h)).1

/-- C2: for every aggregation input, the rendered dropdown list is
ordered with recent-search rows first, then each query suggestion
immediately followed by its own vertical-link rows (every link row
directly follows a row of the same parent suggestion value, and the list
never starts with a link row), then entity-preview rows last; recent-search
rows appear only when the context is not vertical. -/
theorem aggregated_list_ordering (isVertical hideVerticalLinks : Bool)
    (autocompleteResponse : Option AutocompleteResponse)
    (filteredRecentSearches : Option (List RecentSearch))
    (entityPreviews : Option (List Nat)) :
    (suggestionList isVertical hideVerticalLinks autocompleteResponse
        filteredRecentSearches entityPreviews).Chain' rowOkP
    ∧ (∀ y ∈ (suggestionList isVertical hideVerticalLinks autocompleteResponse
        filteredRecentSearches entityPreviews).head?, y.isLinkRow = false)
    ∧ (isVertical = true →
        ∀ r ∈ suggestionList isVertical hideVerticalLinks autocompleteResponse
          filteredRecentSearches entityPreviews, r.isRecentSearch = false) := by
  unfold suggestionList
  split
  · refine ⟨?_, ?_, ?_⟩
    · rw [List.chain'_append]
      refine ⟨?_, chain'_previews _, ?_⟩
      · rw [List.chain'_append]
        refine ⟨chain'_renderRecentSearches _ _,
          chain'_renderQuerySuggestions _ _ _, ?_⟩
        intro x hx y hy
        rcases mem_renderRecentSearches (mem_of_mem_getLast?' hx) with ⟨q, rfl⟩
        rcases head?_renderQuerySuggestions hy with ⟨w, rfl⟩
        exact rowOk_of_not_link (Nat.zero_le _) rfl
      · intro x hx y hy
        rcases List.mem_map.mp (mem_of_mem_head?' hy) with ⟨i, _, rfl⟩
        exact rowOk_of_not_link (rowRank_le_two x) rfl
    · apply head_not_link_append
      · apply head_not_link_append
        · intro y hy
          rcases mem_renderRecentSearches (mem_of_mem_head?' hy) with ⟨q, rfl⟩
          rfl
        · intro y hy
          rcases head?_renderQuerySuggestions hy with ⟨w, rfl⟩
          rfl
      · intro y hy
        rcases List.mem_map.mp (mem_of_mem_head?' hy) with ⟨i, _, rfl⟩
        rfl
    · intro hv r hr
      subst hv
      simp only [renderRecentSearches, if_pos] at hr
      rw [List.nil_append] at hr
      rcases List.mem_append.mp hr with h1 | h1
      · exact not_recent_of_mem_renderQuerySuggestions h1
      · exact not_recent_of_mem_previews h1
  · exact ⟨List.chain'_nil, by simp, by simp⟩

/-- C2 witness: the aggregation example from the spec — one close-match
recent search `a`, one suggestion `b` carrying vertical key `k1`, links
enabled, non-vertical context — satisfies the ordering invariant. -/
theorem aggregated_list_ordering_witness :
    (suggestionList false false (some ⟨[⟨"b", some ["k1"]⟩]⟩)
        (some [⟨"a"⟩]) none).Chain' rowOkP :=
  (aggregated_list_ordering false false (some ⟨[⟨"b", some ["k1"]⟩]⟩)
    (some [⟨"a"⟩]) none).1

/-- C4 counterexample: in vertical context, recent searches do contribute
to the derived UI — two states that differ only in the stored
recent-search entries (one close-match entry versus none) produce
different derived UI outputs, because the accessible-count summary is
computed from the filtered recent searches without any vertical gate. -/
theorem vertical_recents_leak_into_screen_reader :
    derivedUI true false none (some [⟨"pizza"⟩]) none
      ≠ derivedUI true false none (some []) none := by
  decide

/-- C4 amended: whenever the active search context is vertical, no
recent-search row appears in the suggestion list, stored entries
contribute nothing to the aggregated row output nor to the `hasItems`
flag; however, the accessible-count summary still reports the filtered
recent-search count even in vertical context. -/
theorem recent_searches_suppressed_in_vertical_context (hideVerticalLinks : Bool)
    (isCloseMatch : String → String → Bool) (query : String)
    (autocompleteResponse : Option AutocompleteResponse)
    (storedRecentSearches : Option (List RecentSearch))
    (entityPreviews : Option (List Nat)) :
    (∀ r ∈ suggestionList true hideVerticalLinks autocompleteResponse
        (filterRecentSearches isCloseMatch query storedRecentSearches) entityPreviews,
      r.isRecentSearch = false)
    ∧ suggestionList true hideVerticalLinks autocompleteResponse
        (filterRecentSearches isCloseMatch query storedRecentSearches) entityPreviews
      = suggestionList true hideVerticalLinks autocompleteResponse none entityPreviews
    ∧ hasItems true autocompleteResponse
        (filterRecentSearches isCloseMatch query storedRecentSearches)
      = hasItems true autocompleteResponse none := by
  have hhas : ∀ x : Option (List RecentSearch),
      hasItems true autocompleteResponse x
        = hasItems true autocompleteResponse none := by
    intro x
    simp [hasItems]
  have hrr : ∀ x : Option (List RecentSearch),
      renderRecentSearches true x = [] := by
    intro x
    simp [renderRecentSearches]
  refine ⟨?_, ?_, hhas _⟩
  · intro r hr
    unfold suggestionList at hr
    split at hr
    · rw [hrr, List.nil_append] at hr
      rcases List.mem_append.mp hr with h1 | h1
      · exact not_recent_of_mem_renderQuerySuggestions h1
      · exact not_recent_of_mem_previews h1
    · simp at hr
  · unfold suggestionList
    rw [hhas]
    split
    · rw [hrr, hrr]
    · rfl

/-- C4 amended witness: with a matching stored entry `a` present, the
vertical-context suggestion list is the same as with no stored entries. -/
theorem recent_searches_suppressed_in_vertical_context_witness :
    suggestionList true false (some ⟨[⟨"b", some ["k1"]⟩]⟩)
        (filterRecentSearches (fun _ _ => true) "a" (some [⟨"a"⟩])) none
      = suggestionList true false (some ⟨[⟨"b", some ["k1"]⟩]⟩) none none :=
  (recent_searches_suppressed_in_vertical_context false (fun _ _ => true) "a"
    (some ⟨[⟨"b", some ["k1"]⟩]⟩) (some [⟨"a"⟩]) none).2.1

/-- C7 counterexample: with one suggestion carrying one vertical key, in
non-vertical context with links enabled, the summary reports one
autocomplete option while two autocomplete-derived rows (the suggestion
and its vertical-link row) are present in the aggregated list. -/
theorem reported_count_misses_vertical_links :
    ¬ (reportedAutocompleteCount (some ⟨[⟨"b", some ["k1"]⟩]⟩)
        = countAutocompleteRows (suggestionList false false
            (some ⟨[⟨"b", some ["k1"]⟩]⟩) none none)) := by
  decide

/-- C7 amended: the accessible-count summary reports, as two separately
pluralized phrases, the number of autocomplete query suggestions and the
number of filtered recent searches; the reported autocomplete count
always equals the number of query-suggestion rows present (vertical-link
rows are not counted), and the reported recent count equals the number of
recent-search rows present whenever the context is not vertical. -/
theorem screen_reader_counts_match_rows (isVertical hideVerticalLinks : Bool)
    (autocompleteResponse : Option AutocompleteResponse)
    (filteredRecentSearches : Option (List RecentSearch))
    (entityPreviews : Option (List Nat)) :
    reportedAutocompleteCount autocompleteResponse
      = countQuerySuggestionRows (suggestionList isVertical hideVerticalLinks
          autocompleteResponse filteredRecentSearches entityPreviews)
    ∧ (isVertical = false →
        reportedRecentCount filteredRecentSearches
          = countRecentRows (suggestionList isVertical hideVerticalLinks
              autocompleteResponse filteredRecentSearches entityPreviews)) := by
  have hrepA : reportedAutocompleteCount autocompleteResponse
      = ((autocompleteResponse.map AutocompleteResponse.results).getD []).length := by
    cases autocompleteResponse <;> rfl
  have hrepR : reportedRecentCount filteredRecentSearches
      = (filteredRecentSearches.getD []).length := by
    cases filteredRecentSearches <;> rfl
  have hQSr : (renderRecentSearches isVertical filteredRecentSearches).filter
      SuggestionRow.isQuerySuggestion = [] := by
    apply filter_eq_nil_of_mem_false
    intro a ha
    rcases mem_renderRecentSearches ha with ⟨q, rfl⟩
    rfl
  have hQSe : ((entityPreviews.getD []).map SuggestionRow.entityPreview).filter
      SuggestionRow.isQuerySuggestion = [] := by
    apply filter_eq_nil_of_mem_false
    intro a ha
    rcases List.mem_map.mp ha with ⟨i, _, rfl⟩
    rfl
  have hRq : (renderQuerySuggestions hideVerticalLinks isVertical
      autocompleteResponse).filter SuggestionRow.isRecentSearch = [] := by
    apply filter_eq_nil_of_mem_false
    intro a ha
    exact not_recent_of_mem_renderQuerySuggestions ha
  have hRe : ((entityPreviews.getD []).map SuggestionRow.entityPreview).filter
      SuggestionRow.isRecentSearch = [] := by
    apply filter_eq_nil_of_mem_false
    intro a ha
    exact not_recent_of_mem_previews ha
  constructor
  · rw [hrepA]
    unfold suggestionList
    split
    · unfold countQuerySuggestionRows
      rw [List.filter_append, List.filter_append, hQSr, hQSe]
      rw [List.nil_append, List.append_nil]
      exact (countQS_renderQuerySuggestions hideVerticalLinks isVertical
        autocompleteResponse).symm
    · case isFalse hh =>
        have hres : ((autocompleteResponse.map AutocompleteResponse.results).getD [])
            = [] := by
          by_contra hne
          apply hh
          unfold hasItems
          rw [Bool.or_eq_true]
          left
          cases hcase : (autocompleteResponse.map AutocompleteResponse.results).getD [] with
          | nil => exact absurd hcase hne
          | cons a as => rfl
        rw [hres]
        rfl
  · intro hv
    subst hv
    rw [hrepR]
    unfold suggestionList
    split
    · unfold countRecentRows
      rw [List.filter_append, List.filter_append, hRq, hRe]
      rw [List.append_nil, List.append_nil]
      unfold renderRecentSearches
      rw [if_neg (by simp)]
      rw [filter_map_all_true _ _ (fun x => rfl)]
      rw [List.length_map]
    · case isFalse hh =>
        have hfrs : (filteredRecentSearches.getD []) = [] := by
          by_contra hne
          apply hh
          unfold hasItems
          rw [Bool.or_eq_true]
          right
          cases hcase : filteredRecentSearches.getD [] with
          | nil => exact absurd hcase hne
          | cons a as => rfl
        rw [hfrs]
        rfl

/-- C7 amended witness: for one close-match recent search and one
suggestion with a vertical key, in non-vertical context, the reported
recent count equals the recent-search rows present. -/
theorem screen_reader_counts_match_rows_witness :
    reportedRecentCount (some [⟨"a"⟩])
      = countRecentRows (suggestionList false false
          (some ⟨[⟨"b", some ["k1"]⟩]⟩) (some [⟨"a"⟩]) none) :=
  (screen_reader_counts_match_rows false false (some ⟨[⟨"b", some ["k1"]⟩]⟩)
    (some [⟨"a"⟩]) none).2 rfl

end SiteSearch
